import Mathlib

/-!
Shallow embedding of the onboarding backend in `src/server.py`.

The server is a FastAPI app over a MongoDB document store with two
collections: `onboarding_sessions` and `chat_messages`.  We model the store
as two Lean lists (documents in insertion order) together with a logical
clock standing for `datetime.utcnow()` (each write takes the current clock
value as its timestamp and advances it, so later writes carry later
timestamps).  Randomness (`random.choice`, `random.randint`) is passed in as
an explicit parameter of the endpoint, and the artificial `asyncio.sleep`
delays are dropped (they touch no state).

Mongo semantics used by the code:
  - `insert_one` appends a document;
  - `find_one({"id": sid})` returns the first document with that id;
  - `update_one({"id": sid}, {"$set": ...})` updates the first document with
    that id and silently matches nothing when the id is absent;
  - `find(...).sort("timestamp", 1).to_list(100)` returns the matching
    documents sorted by ascending timestamp, truncated to 100.
-/

/-- Mirror of the pydantic model `OnboardingSession` (src/server.py lines 31-39).
The `datetime` fields become logical-clock readings. -/
structure OnboardingSession where
  id : String
  customer_phone : Option String := none
  customer_email : Option String := none
  current_step : String := "welcome"
  progress_percentage : Nat := 0
  created_at : Nat
  updated_at : Nat
  status : String := "in_progress"
  deriving Repr, DecidableEq

/-- Mirror of the pydantic model `ChatMessage` (src/server.py lines 41-45). -/
structure ChatMessage where
  session_id : String
  message : String
  sender : String
  timestamp : Nat
  deriving Repr, DecidableEq

/-- Mirror of `VerificationRequest` (src/server.py lines 47-52). -/
structure VerificationRequest where
  session_id : String
  phone : Option String := none
  email : Option String := none
  otp : Option String := none
  verification_type : Option String := none
  deriving Repr, DecidableEq

/-- Mirror of `KYCDocumentRequest` (src/server.py lines 54-60). -/
structure KYCDocumentRequest where
  session_id : String
  document_type : String
  pan_number : Option String := none
  aadhaar_number : Option String := none
  document_data : Option String := none
  document_file : Option String := none
  deriving Repr, DecidableEq

/-- Mirror of `BiometricRequest` (src/server.py lines 62-64). -/
structure BiometricRequest where
  session_id : String
  face_image : String
  deriving Repr, DecidableEq

/-- Mirror of `AdditionalInfoRequest` (src/server.py lines 66-72). -/
structure AdditionalInfoRequest where
  session_id : String
  full_name : String
  date_of_birth : String
  address : String
  occupation : String
  income_range : String
  deriving Repr, DecidableEq

/-- Mirror of `ESignRequest` (src/server.py lines 74-76). -/
structure ESignRequest where
  session_id : String
  signature_data : String
  deriving Repr, DecidableEq

/-- The document store: the two Mongo collections plus the logical clock. -/
structure Store where
  sessions : List OnboardingSession
  chat_messages : List ChatMessage
  clock : Nat
  deriving Repr, DecidableEq

/-- Observable outcome of one HTTP route: either an `HTTPException`
(status code and detail) or a JSON body with the `success` and `message`
fields (the `chat` route returns only `message`; we record it with
`success := true`, and the extra `otp` field of the two OTP-sending routes
is not modelled since no claim mentions it). -/
inductive ApiOutcome where
  | err (status : Nat) (detail : String)
  | ok (success : Bool) (message : String)
  deriving Repr, DecidableEq

/-- Mirror of `get_ai_response` (src/server.py lines 79-104): the canned
response catalog, with a default fallback for unknown steps. -/
def get_ai_response (step : String) : String :=
  match step with
  | "welcome" => "Hi there! I\x27m Boardy, your personal AI banking assistant! 👋 I\x27ll help you complete your account opening in just a few simple steps. We\x27ll verify your mobile number and email, then complete your KYC process. Ready to get started with me? 🚀"
  | "phone_verification" => "Great! Now I need to verify your mobile number. Please enter your 10-digit mobile number, and I\x27ll send you an OTP for verification. 📱"
  | "phone_otp_verification" => "Perfect! I\x27ve sent a 6-digit OTP to your mobile number. Please enter the OTP you received. (For demo: use 123456) 🔢"
  | "email_verification" => "Excellent! Now let\x27s verify your email address. Please provide your email ID, and I\x27ll send you a verification code. 📧"
  | "email_otp_verification" => "Great! I\x27ve sent a 6-digit OTP to your email address. Please check your inbox and enter the OTP you received. (For demo: use 654321) 📧✨"
  | "pan_verification" => "Now let\x27s start with your KYC verification. First, I need to verify your PAN card details. Please enter your 10-character PAN number. 🆔"
  | "kyc_document" => "Excellent! Your PAN is verified. Now please choose your preferred KYC method:\n\n🪪 **Aadhaar eKYC** - Quick verification using your Aadhaar number\n📄 **DigiLocker** - Upload documents from your DigiLocker\n\nYou can also upload documents directly for verification."
  | "face_verification" => "Almost there! Now I need to capture your photo for biometric verification. This helps us ensure account security. Please position your face clearly in the camera frame and click capture. 📸"
  | "additional_info" => "Great! Your identity is verified. Now I need some additional information to complete your profile. This helps us provide better services tailored to your needs. 📋"
  | "esign" => "Final step! Please review your application details and provide your digital signature to complete the account opening process. ✍️"
  | "completion" => "🎉 Congratulations! Your account opening is complete! \n\nYour application has been submitted successfully. You\x27ll receive:\n• Account details via SMS/Email within 24 hours\n• Debit card delivery in 3-5 business days\n• Welcome kit with all account information\n\nThank you for choosing us! - Boardy 😊"
  | _ => "I\x27m Boardy, and I\x27m here to help you with your account opening. What would you like to know?"

/-- `find_one({"id": sid})` on the sessions collection: first match. -/
def findSession (db : Store) (sid : String) : Option OnboardingSession :=
  db.sessions.find? (fun s => s.id == sid)

/-- Update the first session whose id matches (Mongo `update_one` matches at
most one document and does nothing when the id is absent). -/
def updateFirst (g : OnboardingSession → OnboardingSession) (sid : String) :
    List OnboardingSession → List OnboardingSession
  | [] => []
  | s :: rest => if s.id == sid then g s :: rest else s :: updateFirst g sid rest

/-- `update_one({"id": sid}, {"$set": ...})` on the sessions collection;
every `$set` in the code also writes `updated_at = datetime.utcnow()`,
modelled by stamping the clock and advancing it. -/
def updateSession (db : Store) (sid : String)
    (g : OnboardingSession → OnboardingSession) : Store :=
  { db with
    sessions := updateFirst (fun s => { g s with updated_at := db.clock }) sid db.sessions
    clock := db.clock + 1 }

/-- `insert_one` of a freshly built agent `ChatMessage` (its pydantic
`timestamp` default is `datetime.utcnow()`, modelled by the clock). -/
def insertMessage (db : Store) (sid msg sender : String) : Store :=
  { db with
    chat_messages := db.chat_messages ++ [⟨sid, msg, sender, db.clock⟩]
    clock := db.clock + 1 }

/-- Route `POST /onboarding/start` (src/server.py lines 107-120).  The
fresh uuid is an input.  Returns the new store, the session id and the
welcome message of the response body. -/
def start_onboarding (db : Store) (newId : String) : Store × String × String :=
  let session : OnboardingSession :=
    { id := newId, created_at := db.clock, updated_at := db.clock }
  let db1 : Store := { db with sessions := db.sessions ++ [session], clock := db.clock + 1 }
  let db2 := insertMessage db1 newId (get_ai_response "welcome") "agent"
  (db2, newId, get_ai_response "welcome")

/-- Route `GET /onboarding/{session_id}` (src/server.py lines 122-130):
404 when the id is unknown, otherwise the session document. -/
def get_session (db : Store) (sid : String) : Except (Nat × String) OnboardingSession :=
  match findSession db sid with
  | none => .error (404, "Session not found")
  | some s => .ok s

/-- Route `POST /chat` (src/server.py lines 132-153).  The user message is
stored BEFORE the session lookup, so the 404 path still persists it. -/
def chat (db : Store) (message : ChatMessage) : Store × ApiOutcome :=
  let db1 : Store := { db with chat_messages := db.chat_messages ++ [message] }
  match findSession db1 message.session_id with
  | none => (db1, .err 404 "Session not found")
  | some session =>
    let ai_response := get_ai_response session.current_step
    let db2 := insertMessage db1 message.session_id ai_response "agent"
    (db2, .ok true ai_response)

/-- Route `GET /chat/{session_id}` (src/server.py lines 155-158): the
session\x27s messages sorted by ascending timestamp, truncated to 100. -/
def get_chat_history (db : Store) (sid : String) : List ChatMessage :=
  (List.insertionSort (fun a b => a.timestamp ≤ b.timestamp)
    (db.chat_messages.filter (fun m => m.session_id == sid))).take 100

/-- Route `POST /verify/phone` (src/server.py lines 160-184): updates the
session unconditionally (no existence or step check) and appends the
canned `phone_otp_verification` prompt. -/
def verify_phone (db : Store) (request : VerificationRequest) : Store × ApiOutcome :=
  let db1 := updateSession db request.session_id (fun s =>
    { s with customer_phone := request.phone
             current_step := "phone_otp_verification"
             progress_percentage := 15 })
  let db2 := insertMessage db1 request.session_id
    (get_ai_response "phone_otp_verification") "agent"
  (db2, .ok true "OTP sent successfully to your mobile")

/-- Route `POST /verify/otp` (src/server.py lines 186-239).  Note the email
branch appends a message that PREPENDS a confirmation sentence to the
canned `pan_verification` prompt. -/
def verify_otp (db : Store) (request : VerificationRequest) : Store × ApiOutcome :=
  if request.verification_type == some "phone" then
    if request.otp != some "123456" then
      (db, .ok false "Invalid OTP. Please try again.")
    else
      let db1 := updateSession db request.session_id (fun s =>
        { s with current_step := "email_verification", progress_percentage := 25 })
      let db2 := insertMessage db1 request.session_id
        (get_ai_response "email_verification") "agent"
      (db2, .ok true "Phone verified successfully!")
  else if request.verification_type == some "email" then
    if request.otp != some "654321" then
      (db, .ok false "Invalid email OTP. Please try again.")
    else
      let db1 := updateSession db request.session_id (fun s =>
        { s with current_step := "pan_verification", progress_percentage := 35 })
      let db2 := insertMessage db1 request.session_id
        ("Perfect! Email verified successfully! ✅ I\x27ve sent a verification confirmation to your email. "
          ++ get_ai_response "pan_verification") "agent"
      (db2, .ok true "Email verified successfully! Confirmation sent to your email.")
  else
    (db, .ok false "Invalid verification type.")

/-- Route `POST /verify/email` (src/server.py lines 241-263). -/
def verify_email (db : Store) (request : VerificationRequest) : Store × ApiOutcome :=
  let db1 := updateSession db request.session_id (fun s =>
    { s with customer_email := request.email
             current_step := "email_otp_verification"
             progress_percentage := 30 })
  let db2 := insertMessage db1 request.session_id
    (get_ai_response "email_otp_verification") "agent"
  (db2, .ok true "OTP sent successfully to your email!")

/-- Route `POST /kyc/document` (src/server.py lines 265-325).  The two
`random.choice([True, True, True, False])` draws become the `draw`
parameter.  Python\x27s `not request.pan_number` is true for both `None`
and the empty string; `.title()` on the single lowercase words reaching it
is `capitalize`. -/
def verify_kyc_document (db : Store) (request : KYCDocumentRequest)
    (draw : Bool) : Store × ApiOutcome :=
  if request.document_type == "pan" then
    match request.pan_number with
    | none => (db, .ok false "Please enter a valid 10-character PAN number.")
    | some pan =>
      if pan == "" || pan.length != 10 then
        (db, .ok false "Please enter a valid 10-character PAN number.")
      else if !draw then
        (db, .ok false "PAN verification failed. Please check your PAN number and try again.")
      else
        let db1 := updateSession db request.session_id (fun s =>
          { s with current_step := "kyc_document", progress_percentage := 45 })
        let db2 := insertMessage db1 request.session_id
          (get_ai_response "kyc_document") "agent"
        (db2, .ok true "PAN verified successfully!")
  else if request.document_type == "aadhaar" || request.document_type == "digilocker" then
    if !draw then
      (db, .ok false (request.document_type.capitalize
        ++ " verification failed. Please check your details and try again."))
    else
      let db1 := updateSession db request.session_id (fun s =>
        { s with current_step := "face_verification", progress_percentage := 60 })
      let db2 := insertMessage db1 request.session_id
        (get_ai_response "face_verification") "agent"
      (db2, .ok true (request.document_type.capitalize ++ " verified successfully!"))
  else
    (db, .ok false "Invalid document type.")

/-- Route `POST /verify/biometric` (src/server.py lines 327-355).  The
`random.randint(85, 98)` draw becomes the `match_score` parameter; the code
then tests `match_score >= 85`. -/
def verify_biometric (db : Store) (request : BiometricRequest)
    (match_score : Nat) : Store × ApiOutcome :=
  let success := decide (85 ≤ match_score)
  if !success then
    (db, .ok false "Face verification failed. Please try again with better lighting.")
  else
    let db1 := updateSession db request.session_id (fun s =>
      { s with current_step := "additional_info", progress_percentage := 80 })
    let db2 := insertMessage db1 request.session_id
      (get_ai_response "additional_info") "agent"
    (db2, .ok true ("Face verification successful! Match score: "
      ++ toString match_score ++ "%"))

/-- Route `POST /submit/additional-info` (src/server.py lines 357-377). -/
def submit_additional_info (db : Store) (request : AdditionalInfoRequest) :
    Store × ApiOutcome :=
  let db1 := updateSession db request.session_id (fun s =>
    { s with current_step := "esign", progress_percentage := 90 })
  let db2 := insertMessage db1 request.session_id (get_ai_response "esign") "agent"
  (db2, .ok true "Information saved successfully!")

/-- Route `POST /esign` (src/server.py lines 379-400): the only route that
writes `status`. -/
def complete_esign (db : Store) (request : ESignRequest) : Store × ApiOutcome :=
  let db1 := updateSession db request.session_id (fun s =>
    { s with current_step := "completion", progress_percentage := 100
             status := "completed" })
  let db2 := insertMessage db1 request.session_id (get_ai_response "completion") "agent"
  (db2, .ok true "Onboarding completed successfully!")

/-- The stores reachable from an empty database by any sequence of API
calls with arbitrary inputs and arbitrary random draws. -/
inductive Reachable : Store → Prop where
  | init : Reachable ⟨[], [], 0⟩
  | start (db : Store) (newId : String) :
      Reachable db → Reachable (start_onboarding db newId).1
  | chatCall (db : Store) (m : ChatMessage) :
      Reachable db → Reachable (chat db m).1
  | phone (db : Store) (r : VerificationRequest) :
      Reachable db → Reachable (verify_phone db r).1
  | otp (db : Store) (r : VerificationRequest) :
      Reachable db → Reachable (verify_otp db r).1
  | email (db : Store) (r : VerificationRequest) :
      Reachable db → Reachable (verify_email db r).1
  | kyc (db : Store) (r : KYCDocumentRequest) (draw : Bool) :
      Reachable db → Reachable (verify_kyc_document db r draw).1
  | biometric (db : Store) (r : BiometricRequest) (score : Nat) :
      Reachable db → Reachable (verify_biometric db r score).1
  | addInfo (db : Store) (r : AdditionalInfoRequest) :
      Reachable db → Reachable (submit_additional_info db r).1
  | esign (db : Store) (r : ESignRequest) :
      Reachable db → Reachable (complete_esign db r).1

/-- The spec\x27s fixed progress table (§4.1): the percentage each step
carries when it is the target of a transition, `welcome` being the initial
value.  Stated from the spec\x27s words, to be compared with the values the
code assigns. -/
def specProgressOf : String → Nat
  | "welcome" => 0
  | "phone_otp_verification" => 15
  | "email_verification" => 25
  | "email_otp_verification" => 30
  | "pan_verification" => 35
  | "kyc_document" => 45
  | "face_verification" => 60
  | "additional_info" => 80
  | "esign" => 90
  | "completion" => 100
  | _ => 0

/-- The empty database the server starts from. -/
def emptyStore : Store := ⟨[], [], 0⟩

/-- A fresh onboarding session "s1" (one `POST /onboarding/start`). -/
def demoStart : Store := (start_onboarding emptyStore "s1").1

/-- The same session after `POST /esign`: step `completion`, progress 100,
status `completed`. -/
def demoEsigned : Store := (complete_esign demoStart ⟨"s1", "sig"⟩).1

/-- The completed session after one further (out-of-order) call to
`POST /verify/phone`: the update is unguarded, so the step and progress
are overwritten backwards while `status` stays `completed`. -/
def demoRolledBack : Store :=
  (verify_phone demoEsigned { session_id := "s1", phone := some "9876543210" }).1

/-- The stores produced by running the full onboarding flow for session
"s1" in the intended order, one entry per completed call. -/
def canonicalRun : List Store :=
  let d0 := demoStart
  let d1 := (verify_phone d0 { session_id := "s1", phone := some "9876543210" }).1
  let d2 := (verify_otp d1
    { session_id := "s1", otp := some "123456", verification_type := some "phone" }).1
  let d3 := (verify_email d2 { session_id := "s1", email := some "a@b.co" }).1
  let d4 := (verify_otp d3
    { session_id := "s1", otp := some "654321", verification_type := some "email" }).1
  let d5 := (verify_kyc_document d4
    { session_id := "s1", document_type := "pan", pan_number := some "ABCDE1234F" } true).1
  let d6 := (verify_kyc_document d5
    { session_id := "s1", document_type := "aadhaar" } true).1
  let d7 := (verify_biometric d6 { session_id := "s1", face_image := "img" } 92).1
  let d8 := (submit_additional_info d7 ⟨"s1", "N", "D", "A", "O", "I"⟩).1
  let d9 := (complete_esign d8 ⟨"s1", "sig"⟩).1
  [d0, d1, d2, d3, d4, d5, d6, d7, d8, d9]

instance : IsTotal ChatMessage (fun a b => a.timestamp ≤ b.timestamp) :=
  ⟨fun a b => Nat.le_total a.timestamp b.timestamp⟩

instance : IsTrans ChatMessage (fun a b => a.timestamp ≤ b.timestamp) :=
  ⟨fun _ _ _ h1 h2 => Nat.le_trans h1 h2⟩

/-- Every element of `updateFirst g sid l` is an element of `l` or the
image under `g` of one, so a predicate closed under `g` survives the
update. -/
theorem forall_updateFirst {P : OnboardingSession → Prop}
    {g : OnboardingSession → OnboardingSession} {sid : String}
    {l : List OnboardingSession}
    (hl : ∀ s ∈ l, P s) (hg : ∀ s, P (g s)) :
    ∀ s ∈ updateFirst g sid l, P s := by
  induction l with
  | nil => intro s hs; simp [updateFirst] at hs
  | cons hd tl ih =>
      intro s hs
      unfold updateFirst at hs
      split at hs
      · rcases List.mem_cons.1 hs with rfl | h
        · exact hg hd
        · exact hl _ (List.mem_cons_of_mem _ h)
      · rcases List.mem_cons.1 hs with rfl | h
        · exact hl _ (List.mem_cons_self _ _)
        · exact ih (fun t ht => hl t (List.mem_cons_of_mem _ ht)) s h

/-- When `find?` by id hits a document, after `updateFirst` with an
id-preserving update it hits the updated document. -/
theorem find?_updateFirst {g : OnboardingSession → OnboardingSession} {sid : String}
    {l : List OnboardingSession} {s : OnboardingSession}
    (hid : ∀ t, (g t).id = t.id)
    (h : l.find? (fun t => t.id == sid) = some s) :
    (updateFirst g sid l).find? (fun t => t.id == sid) = some (g s) := by
  induction l with
  | nil => simp at h
  | cons hd tl ih =>
      unfold updateFirst
      cases hb : (hd.id == sid) with
      | true =>
          simp only [List.find?_cons, hb] at h
          injection h with h; subst h
          rw [if_pos rfl]
          have hg2 : ((g hd).id == sid) = true := by rw [hid]; exact hb
          simp only [List.find?_cons, hg2]
      | false =>
          simp only [List.find?_cons, hb] at h
          rw [if_neg (by simp)]
          simp only [List.find?_cons, hb]
          exact ih h

/-- Reading back a session after `updateSession` returns the updated
document (with its `updated_at` stamped by the clock). -/
theorem findSession_updateSession {db : Store} {sid : String}
    {g : OnboardingSession → OnboardingSession} {s : OnboardingSession}
    (hid : ∀ t, (g t).id = t.id)
    (h : findSession db sid = some s) :
    findSession (updateSession db sid g) sid =
      some { g s with updated_at := db.clock } := by
  unfold findSession at h
  exact @find?_updateFirst (fun t => { g t with updated_at := db.clock }) sid
    db.sessions s (fun t => hid t) h

/-- C1 (amended): along the intended in-order call sequence the session\x27s
progress percentage is non-decreasing (0, 15, 25, 30, 35, 45, 60, 80, 90,
100, one fixed value per target step); the original claim that NO sequence
of calls can lower progress or move the step back fails because transition
endpoints never check the current state (see the counterexample). -/
theorem claim1_canonical_progress_monotone :
    canonicalRun.map (fun d => (findSession d "s1").map
        (fun s => (s.current_step, s.progress_percentage))) =
      [some ("welcome", 0), some ("phone_otp_verification", 15),
       some ("email_verification", 25), some ("email_otp_verification", 30),
       some ("pan_verification", 35), some ("kyc_document", 45),
       some ("face_verification", 60), some ("additional_info", 80),
       some ("esign", 90), some ("completion", 100)] ∧
    List.Chain' (fun a b => a ≤ b)
      (canonicalRun.map (fun d =>
        ((findSession d "s1").map (fun s => s.progress_percentage)).getD 0)) := by
  refine ⟨by decide, ?_⟩
  have hm : canonicalRun.map (fun d =>
      ((findSession d "s1").map (fun s => s.progress_percentage)).getD 0) =
      [0, 15, 25, 30, 35, 45, 60, 80, 90, 100] := by decide
  rw [hm]
  simp

/-- C1 counterexample: a completed session (step `completion`, progress 100)
is reachable, and one further `verify_phone` call on it is a reachable
transition that moves the step back to `phone_otp_verification` and lowers
the progress percentage from 100 to 15. -/
theorem claim1_counterexample :
    Reachable demoEsigned ∧
    demoRolledBack =
      (verify_phone demoEsigned { session_id := "s1", phone := some "9876543210" }).1 ∧
    (findSession demoEsigned "s1").map
        (fun s => (s.current_step, s.progress_percentage)) =
      some ("completion", 100) ∧
    (findSession demoRolledBack "s1").map
        (fun s => (s.current_step, s.progress_percentage)) =
      some ("phone_otp_verification", 15) := by
  refine ⟨?_, rfl, by decide, by decide⟩
  exact Reachable.esign demoStart ⟨"s1", "sig"⟩
    (Reachable.start emptyStore "s1" Reachable.init)

/-- C4 (amended): in every reachable store, a session at step `completion`
has status `completed` (the only route that sets the step to `completion`
also sets the status, and no route ever resets the status).  The converse
direction of the original iff fails: see the counterexample. -/
theorem claim4_step_completion_implies_completed :
    ∀ db : Store, Reachable db →
      ∀ s ∈ db.sessions, s.current_step = "completion" → s.status = "completed" := by
  intro db h
  induction h with
  | init => intro s hs; simp at hs
  | start db i _ ih =>
      intro s hs
      simp only [start_onboarding, insertMessage] at hs
      rcases List.mem_append.1 hs with h1 | h1
      · exact ih s h1
      · simp only [List.mem_singleton] at h1; subst h1
        intro hc
        exact absurd hc (by decide : ("welcome" : String) ≠ "completion")
  | chatCall db m _ ih =>
      intro s hs
      simp only [chat] at hs
      split at hs
      · exact ih s hs
      · simp only [insertMessage] at hs; exact ih s hs
  | phone db r _ ih =>
      intro s hs
      simp only [verify_phone, insertMessage, updateSession] at hs
      exact forall_updateFirst ih
        (fun t => by
          intro hc
          exact absurd hc (by decide : ("phone_otp_verification" : String) ≠ "completion")) s hs
  | otp db r _ ih =>
      intro s hs
      simp only [verify_otp, insertMessage, updateSession] at hs
      split at hs
      · split at hs
        · exact ih s hs
        · exact forall_updateFirst ih
            (fun t => by
              intro hc
              exact absurd hc (by decide : ("email_verification" : String) ≠ "completion")) s hs
      · split at hs
        · split at hs
          · exact ih s hs
          · exact forall_updateFirst ih
              (fun t => by
                intro hc
                exact absurd hc (by decide : ("pan_verification" : String) ≠ "completion")) s hs
        · exact ih s hs
  | email db r _ ih =>
      intro s hs
      simp only [verify_email, insertMessage, updateSession] at hs
      exact forall_updateFirst ih
        (fun t => by
          intro hc
          exact absurd hc (by decide : ("email_otp_verification" : String) ≠ "completion")) s hs
  | kyc db r draw _ ih =>
      intro s hs
      simp only [verify_kyc_document, insertMessage, updateSession] at hs
      split at hs
      · split at hs
        · exact ih s hs
        · split at hs
          · exact ih s hs
          · split at hs
            · exact ih s hs
            · exact forall_updateFirst ih
                (fun t => by
                  intro hc
                  exact absurd hc (by decide : ("kyc_document" : String) ≠ "completion")) s hs
      · split at hs
        · split at hs
          · exact ih s hs
          · exact forall_updateFirst ih
              (fun t => by
                intro hc
                exact absurd hc (by decide : ("face_verification" : String) ≠ "completion")) s hs
        · exact ih s hs
  | biometric db r score _ ih =>
      intro s hs
      simp only [verify_biometric, insertMessage, updateSession] at hs
      split at hs
      · exact ih s hs
      · exact forall_updateFirst ih
          (fun t => by
            intro hc
            exact absurd hc (by decide : ("additional_info" : String) ≠ "completion")) s hs
  | addInfo db r _ ih =>
      intro s hs
      simp only [submit_additional_info, insertMessage, updateSession] at hs
      exact forall_updateFirst ih
        (fun t => by
          intro hc
          exact absurd hc (by decide : ("esign" : String) ≠ "completion")) s hs
  | esign db r _ ih =>
      intro s hs
      simp only [complete_esign, insertMessage, updateSession] at hs
      exact forall_updateFirst ih (fun t => by intro _; rfl) s hs

/-- C4 counterexample: the reachable store `demoRolledBack` (start, esign,
then an out-of-order verify_phone) holds a session with status `completed`
whose step is `phone_otp_verification`, so the claimed iff fails. -/
theorem claim4_counterexample :
    ¬ (∀ db : Store, Reachable db → ∀ s ∈ db.sessions,
        (s.status = "completed" ↔ s.current_step = "completion")) := by
  intro h
  have hr : Reachable demoRolledBack :=
    Reachable.phone demoEsigned { session_id := "s1", phone := some "9876543210" }
      (Reachable.esign demoStart ⟨"s1", "sig"⟩
        (Reachable.start emptyStore "s1" Reachable.init))
  have hmem : (⟨"s1", some "9876543210", none, "phone_otp_verification",
      15, 0, 4, "completed"⟩ : OnboardingSession) ∈ demoRolledBack.sessions := by
    decide
  have h2 := (h demoRolledBack hr _ hmem).mp rfl
  exact absurd h2 (by decide : ("phone_otp_verification" : String) ≠ "completion")

/-- C4 witness: the theorem applied to the concrete reachable store
`demoEsigned`, whose session sits at step `completion`. -/
theorem claim4_witness :
    (⟨"s1", none, none, "completion", 100, 0, 2, "completed"⟩ :
      OnboardingSession).status = "completed" := by
  exact claim4_step_completion_implies_completed demoEsigned
    (Reachable.esign demoStart ⟨"s1", "sig"⟩
      (Reachable.start emptyStore "s1" Reachable.init))
    _ (by decide) rfl

/-- C2 (amended): every successful transition appends exactly one agent
`ChatMessage` whose body is the canned prompt of the new step — except the
email-OTP success transition, whose body is the canned `pan_verification`
prompt with a confirmation sentence prepended (src/server.py line 232). -/
theorem claim2_one_agent_message_per_transition :
    ∀ db : Store,
      (∀ i, ∃ m : ChatMessage,
        (start_onboarding db i).1.chat_messages = db.chat_messages ++ [m] ∧
        m.sender = "agent" ∧ m.message = get_ai_response "welcome") ∧
      (∀ r : VerificationRequest, ∃ m : ChatMessage,
        (verify_phone db r).1.chat_messages = db.chat_messages ++ [m] ∧
        m.sender = "agent" ∧ m.message = get_ai_response "phone_otp_verification") ∧
      (∀ r : VerificationRequest, r.verification_type = some "phone" →
        r.otp = some "123456" → ∃ m : ChatMessage,
        (verify_otp db r).1.chat_messages = db.chat_messages ++ [m] ∧
        m.sender = "agent" ∧ m.message = get_ai_response "email_verification") ∧
      (∀ r : VerificationRequest, r.verification_type = some "email" →
        r.otp = some "654321" → ∃ m : ChatMessage,
        (verify_otp db r).1.chat_messages = db.chat_messages ++ [m] ∧
        m.sender = "agent" ∧
        m.message = "Perfect! Email verified successfully! ✅ I\x27ve sent a verification confirmation to your email. "
          ++ get_ai_response "pan_verification") ∧
      (∀ r : VerificationRequest, ∃ m : ChatMessage,
        (verify_email db r).1.chat_messages = db.chat_messages ++ [m] ∧
        m.sender = "agent" ∧ m.message = get_ai_response "email_otp_verification") ∧
      (∀ (r : KYCDocumentRequest) (p : String), r.document_type = "pan" →
        r.pan_number = some p → p.length = 10 → ∃ m : ChatMessage,
        (verify_kyc_document db r true).1.chat_messages = db.chat_messages ++ [m] ∧
        m.sender = "agent" ∧ m.message = get_ai_response "kyc_document") ∧
      (∀ r : KYCDocumentRequest,
        r.document_type = "aadhaar" ∨ r.document_type = "digilocker" →
        ∃ m : ChatMessage,
        (verify_kyc_document db r true).1.chat_messages = db.chat_messages ++ [m] ∧
        m.sender = "agent" ∧ m.message = get_ai_response "face_verification") ∧
      (∀ (r : BiometricRequest) (score : Nat), 85 ≤ score → ∃ m : ChatMessage,
        (verify_biometric db r score).1.chat_messages = db.chat_messages ++ [m] ∧
        m.sender = "agent" ∧ m.message = get_ai_response "additional_info") ∧
      (∀ r : AdditionalInfoRequest, ∃ m : ChatMessage,
        (submit_additional_info db r).1.chat_messages = db.chat_messages ++ [m] ∧
        m.sender = "agent" ∧ m.message = get_ai_response "esign") ∧
      (∀ r : ESignRequest, ∃ m : ChatMessage,
        (complete_esign db r).1.chat_messages = db.chat_messages ++ [m] ∧
        m.sender = "agent" ∧ m.message = get_ai_response "completion") := by
  intro db
  refine ⟨?_, ?_, ?_, ?_, ?_, ?_, ?_, ?_, ?_, ?_⟩
  · intro i
    exact ⟨⟨i, get_ai_response "welcome", "agent", db.clock + 1⟩, rfl, rfl, rfl⟩
  · intro r
    exact ⟨⟨r.session_id, get_ai_response "phone_otp_verification", "agent",
      db.clock + 1⟩, rfl, rfl, rfl⟩
  · intro r h1 h2
    refine ⟨⟨r.session_id, get_ai_response "email_verification", "agent",
      db.clock + 1⟩, ?_, rfl, rfl⟩
    simp [verify_otp, h1, h2, insertMessage, updateSession]
  · intro r h1 h2
    refine ⟨⟨r.session_id,
      "Perfect! Email verified successfully! ✅ I\x27ve sent a verification confirmation to your email. "
        ++ get_ai_response "pan_verification", "agent", db.clock + 1⟩, ?_, rfl, rfl⟩
    simp [verify_otp, h1, h2, insertMessage, updateSession]
  · intro r
    exact ⟨⟨r.session_id, get_ai_response "email_otp_verification", "agent",
      db.clock + 1⟩, rfl, rfl, rfl⟩
  · intro r p h1 hp hlen
    have hne : p ≠ "" := by intro hq; rw [hq] at hlen; simp at hlen
    refine ⟨⟨r.session_id, get_ai_response "kyc_document", "agent",
      db.clock + 1⟩, ?_, rfl, rfl⟩
    simp [verify_kyc_document, h1, hp, hlen, hne, insertMessage, updateSession]
  · intro r h1
    refine ⟨⟨r.session_id, get_ai_response "face_verification", "agent",
      db.clock + 1⟩, ?_, rfl, rfl⟩
    rcases h1 with h1 | h1 <;>
      simp [verify_kyc_document, h1, insertMessage, updateSession]
  · intro r score hsc
    refine ⟨⟨r.session_id, get_ai_response "additional_info", "agent",
      db.clock + 1⟩, ?_, rfl, rfl⟩
    simp [verify_biometric, decide_eq_true hsc, insertMessage, updateSession]
  · intro r
    exact ⟨⟨r.session_id, get_ai_response "esign", "agent",
      db.clock + 1⟩, rfl, rfl, rfl⟩
  · intro r
    exact ⟨⟨r.session_id, get_ai_response "completion", "agent",
      db.clock + 1⟩, rfl, rfl, rfl⟩

/-- C2 counterexample: on the email-OTP success transition the session
moves to `pan_verification`, but the single appended agent message differs
from the canned `pan_verification` prompt (a confirmation sentence is
prepended), so the claim as stated fails. -/
theorem claim2_counterexample :
    (verify_otp demoStart
        { session_id := "s1", otp := some "654321", verification_type := some "email" }).2 =
      .ok true "Email verified successfully! Confirmation sent to your email." ∧
    (findSession (verify_otp demoStart
        { session_id := "s1", otp := some "654321", verification_type := some "email" }).1
        "s1").map (fun s => s.current_step) = some "pan_verification" ∧
    (verify_otp demoStart
        { session_id := "s1", otp := some "654321", verification_type := some "email" }).1.chat_messages.length =
      demoStart.chat_messages.length + 1 ∧
    ((verify_otp demoStart
        { session_id := "s1", otp := some "654321", verification_type := some "email" }).1.chat_messages.getLast?).map
        (fun m => (m.sender, m.message == get_ai_response "pan_verification")) =
      some ("agent", false) := by
  exact ⟨by decide, by decide, by decide, by decide⟩

/-- C2 witness: the theorem\x27s conditional conjuncts applied at concrete
inputs, all hypotheses discharged. -/
theorem claim2_witness :
    (∃ m : ChatMessage,
      (verify_otp emptyStore
          { session_id := "s1", otp := some "123456", verification_type := some "phone" }).1.chat_messages =
        emptyStore.chat_messages ++ [m] ∧
      m.sender = "agent" ∧ m.message = get_ai_response "email_verification") ∧
    (∃ m : ChatMessage,
      (verify_otp emptyStore
          { session_id := "s1", otp := some "654321", verification_type := some "email" }).1.chat_messages =
        emptyStore.chat_messages ++ [m] ∧
      m.sender = "agent" ∧
      m.message = "Perfect! Email verified successfully! ✅ I\x27ve sent a verification confirmation to your email. "
        ++ get_ai_response "pan_verification") ∧
    (∃ m : ChatMessage,
      (verify_kyc_document emptyStore
          { session_id := "s1", document_type := "pan", pan_number := some "ABCDE1234F" }
          true).1.chat_messages =
        emptyStore.chat_messages ++ [m] ∧
      m.sender = "agent" ∧ m.message = get_ai_response "kyc_document") ∧
    (∃ m : ChatMessage,
      (verify_kyc_document emptyStore
          { session_id := "s1", document_type := "digilocker" } true).1.chat_messages =
        emptyStore.chat_messages ++ [m] ∧
      m.sender = "agent" ∧ m.message = get_ai_response "face_verification") ∧
    (∃ m : ChatMessage,
      (verify_biometric emptyStore
          { session_id := "s1", face_image := "img" } 90).1.chat_messages =
        emptyStore.chat_messages ++ [m] ∧
      m.sender = "agent" ∧ m.message = get_ai_response "additional_info") := by
  refine ⟨?_, ?_, ?_, ?_, ?_⟩
  · exact (claim2_one_agent_message_per_transition emptyStore).2.2.1 _ rfl rfl
  · exact (claim2_one_agent_message_per_transition emptyStore).2.2.2.1 _ rfl rfl
  · exact (claim2_one_agent_message_per_transition emptyStore).2.2.2.2.2.1 _
      "ABCDE1234F" rfl rfl (by decide)
  · exact (claim2_one_agent_message_per_transition emptyStore).2.2.2.2.2.2.1 _
      (Or.inr rfl)
  · exact (claim2_one_agent_message_per_transition emptyStore).2.2.2.2.2.2.2.1 _
      90 (by decide)

/-- Session lookup ignores the chat-message collection. -/
theorem findSession_withMessages (db : Store) (l : List ChatMessage) (sid : String) :
    findSession { db with chat_messages := l } sid = findSession db sid := rfl

/-- C3 (amended): only the session read (`GET /onboarding/{id}`) and the
`POST /chat` route surface a 404 for an unknown session id; every
transition endpoint performs an unguarded update that silently matches
nothing and reports success, never an error. -/
theorem claim3_not_found_only_on_reads_and_chat :
    (∀ (db : Store) (sid : String), findSession db sid = none →
      get_session db sid = .error (404, "Session not found")) ∧
    (∀ (db : Store) (m : ChatMessage), findSession db m.session_id = none →
      (chat db m).2 = .err 404 "Session not found") ∧
    (∀ (db : Store) (r : VerificationRequest) (st : Nat) (d : String),
      (verify_phone db r).2 ≠ .err st d ∧ (verify_otp db r).2 ≠ .err st d ∧
      (verify_email db r).2 ≠ .err st d) ∧
    (∀ (db : Store) (r : KYCDocumentRequest) (draw : Bool) (st : Nat) (d : String),
      (verify_kyc_document db r draw).2 ≠ .err st d) ∧
    (∀ (db : Store) (r : BiometricRequest) (score : Nat) (st : Nat) (d : String),
      (verify_biometric db r score).2 ≠ .err st d) ∧
    (∀ (db : Store) (r : AdditionalInfoRequest) (st : Nat) (d : String),
      (submit_additional_info db r).2 ≠ .err st d) ∧
    (∀ (db : Store) (r : ESignRequest) (st : Nat) (d : String),
      (complete_esign db r).2 ≠ .err st d) := by
  refine ⟨?_, ?_, ?_, ?_, ?_, ?_, ?_⟩
  · intro db sid h; simp [get_session, h]
  · intro db m h
    simp only [chat]
    rw [findSession_withMessages, h]
  · intro db r st d
    refine ⟨by simp [verify_phone, insertMessage, updateSession], ?_, ?_⟩
    · simp only [verify_otp]
      split
      · split
        · simp
        · simp [insertMessage, updateSession]
      · split
        · split
          · simp
          · simp [insertMessage, updateSession]
        · simp
    · simp [verify_email, insertMessage, updateSession]
  · intro db r draw st d
    simp only [verify_kyc_document]
    split
    · split
      · simp
      · split
        · simp
        · split
          · simp
          · simp [insertMessage, updateSession]
    · split
      · split
        · simp
        · simp [insertMessage, updateSession]
      · simp
  · intro db r score st d
    simp only [verify_biometric]
    split
    · simp
    · simp [insertMessage, updateSession]
  · intro db r st d
    simp [submit_additional_info, insertMessage, updateSession]
  · intro db r st d
    simp [complete_esign, insertMessage, updateSession]

/-- C3 counterexample: with an empty store (the id `ghost` is absent),
`verify_phone` reports success instead of a 404. -/
theorem claim3_counterexample :
    findSession emptyStore "ghost" = none ∧
    (verify_phone emptyStore { session_id := "ghost", phone := some "1234567890" }).2 =
      .ok true "OTP sent successfully to your mobile" :=
  ⟨rfl, rfl⟩

/-- C3 witness: the 404 conjuncts applied to the empty store and an
unknown id. -/
theorem claim3_witness :
    get_session emptyStore "ghost" = .error (404, "Session not found") ∧
    (chat emptyStore ⟨"ghost", "hello", "user", 7⟩).2 = .err 404 "Session not found" :=
  ⟨claim3_not_found_only_on_reads_and_chat.1 emptyStore "ghost" rfl,
   claim3_not_found_only_on_reads_and_chat.2.1 emptyStore ⟨"ghost", "hello", "user", 7⟩ rfl⟩

/-- Session lookup ignores a chat-message insert. -/
theorem findSession_insertMessage (db : Store) (sid2 msg snd sid : String) :
    findSession (insertMessage db sid2 msg snd) sid = findSession db sid := rfl

/-- C5 (amended): chat history is returned in non-decreasing timestamp
order, and the stored message count grows by exactly ONE per successful
transition call (the agent prompt only — the user\x27s own text is stored
solely by the separate `chat` route) and by zero per failed verification
call, which leaves the whole store untouched. -/
theorem claim5_history_sorted_and_counts :
    (∀ (db : Store) (sid : String),
      List.Pairwise (fun a b : ChatMessage => a.timestamp ≤ b.timestamp)
        (get_chat_history db sid)) ∧
    (∀ db : Store,
      (∀ r : VerificationRequest,
        (verify_phone db r).1.chat_messages.length = db.chat_messages.length + 1 ∧
        (verify_email db r).1.chat_messages.length = db.chat_messages.length + 1) ∧
      (∀ r : VerificationRequest, r.verification_type = some "phone" →
        r.otp = some "123456" →
        (verify_otp db r).1.chat_messages.length = db.chat_messages.length + 1) ∧
      (∀ r : VerificationRequest, r.verification_type = some "email" →
        r.otp = some "654321" →
        (verify_otp db r).1.chat_messages.length = db.chat_messages.length + 1) ∧
      (∀ (r : KYCDocumentRequest) (p : String), r.document_type = "pan" →
        r.pan_number = some p → p.length = 10 →
        (verify_kyc_document db r true).1.chat_messages.length = db.chat_messages.length + 1) ∧
      (∀ r : KYCDocumentRequest,
        r.document_type = "aadhaar" ∨ r.document_type = "digilocker" →
        (verify_kyc_document db r true).1.chat_messages.length = db.chat_messages.length + 1) ∧
      (∀ (r : BiometricRequest) (score : Nat), 85 ≤ score →
        (verify_biometric db r score).1.chat_messages.length = db.chat_messages.length + 1) ∧
      (∀ r : AdditionalInfoRequest,
        (submit_additional_info db r).1.chat_messages.length = db.chat_messages.length + 1) ∧
      (∀ r : ESignRequest,
        (complete_esign db r).1.chat_messages.length = db.chat_messages.length + 1)) ∧
    (∀ db : Store,
      (∀ r : VerificationRequest, r.verification_type = some "phone" →
        r.otp ≠ some "123456" → (verify_otp db r).1 = db) ∧
      (∀ r : VerificationRequest, r.verification_type = some "email" →
        r.otp ≠ some "654321" → (verify_otp db r).1 = db) ∧
      (∀ r : VerificationRequest, r.verification_type ≠ some "phone" →
        r.verification_type ≠ some "email" → (verify_otp db r).1 = db) ∧
      (∀ (r : KYCDocumentRequest) (draw : Bool), r.document_type = "pan" →
        r.pan_number = none → (verify_kyc_document db r draw).1 = db) ∧
      (∀ (r : KYCDocumentRequest) (draw : Bool) (p : String), r.document_type = "pan" →
        r.pan_number = some p → p.length ≠ 10 → (verify_kyc_document db r draw).1 = db) ∧
      (∀ (r : KYCDocumentRequest) (p : String), r.document_type = "pan" →
        r.pan_number = some p → (verify_kyc_document db r false).1 = db) ∧
      (∀ r : KYCDocumentRequest,
        r.document_type = "aadhaar" ∨ r.document_type = "digilocker" →
        (verify_kyc_document db r false).1 = db) ∧
      (∀ (r : KYCDocumentRequest) (draw : Bool), r.document_type ≠ "pan" →
        r.document_type ≠ "aadhaar" → r.document_type ≠ "digilocker" →
        (verify_kyc_document db r draw).1 = db) ∧
      (∀ (r : BiometricRequest) (score : Nat), score < 85 →
        (verify_biometric db r score).1 = db)) := by
  refine ⟨?_, ?_, ?_⟩
  · intro db sid
    have h := List.sorted_insertionSort (fun a b : ChatMessage => a.timestamp ≤ b.timestamp)
      (db.chat_messages.filter (fun m => m.session_id == sid))
    exact List.Pairwise.sublist (List.take_sublist 100 _) h
  · intro db
    refine ⟨?_, ?_, ?_, ?_, ?_, ?_, ?_, ?_⟩
    · intro r
      exact ⟨by simp [verify_phone, insertMessage, updateSession],
             by simp [verify_email, insertMessage, updateSession]⟩
    · intro r h1 h2
      simp [verify_otp, h1, h2, insertMessage, updateSession]
    · intro r h1 h2
      simp [verify_otp, h1, h2, insertMessage, updateSession]
    · intro r p h1 hp hlen
      have hne : p ≠ "" := by intro hq; rw [hq] at hlen; simp at hlen
      simp [verify_kyc_document, h1, hp, hlen, hne, insertMessage, updateSession]
    · intro r h1
      rcases h1 with h1 | h1 <;>
        simp [verify_kyc_document, h1, insertMessage, updateSession]
    · intro r score hsc
      simp [verify_biometric, decide_eq_true hsc, insertMessage, updateSession]
    · intro r
      simp [submit_additional_info, insertMessage, updateSession]
    · intro r
      simp [complete_esign, insertMessage, updateSession]
  · intro db
    refine ⟨?_, ?_, ?_, ?_, ?_, ?_, ?_, ?_, ?_⟩
    · intro r h1 h2; simp [verify_otp, h1, h2]
    · intro r h1 h2; simp [verify_otp, h1, h2]
    · intro r h1 h2; simp [verify_otp, h1, h2]
    · intro r draw h1 hp; simp [verify_kyc_document, h1, hp]
    · intro r draw p h1 hp hlen; simp [verify_kyc_document, h1, hp, hlen]
    · intro r p h1 hp
      by_cases hemp : p = ""
      · simp [verify_kyc_document, h1, hp, hemp]
      · by_cases hlen : p.length = 10
        · simp [verify_kyc_document, h1, hp, hemp, hlen]
        · simp [verify_kyc_document, h1, hp, hemp, hlen]
    · intro r h1
      rcases h1 with h1 | h1 <;> simp [verify_kyc_document, h1]
    · intro r draw h1 h2 h3; simp [verify_kyc_document, h1, h2, h3]
    · intro r score hlt
      simp [verify_biometric, Nat.not_le.mpr hlt]

/-- C5 counterexample: a successful `verify_phone` transition call adds
exactly one stored chat message (the agent prompt), not two: the history
grows from 1 to 2, while the claim predicts 3. -/
theorem claim5_counterexample :
    (verify_phone demoStart { session_id := "s1", phone := some "9876543210" }).2 =
      .ok true "OTP sent successfully to your mobile" ∧
    demoStart.chat_messages.length = 1 ∧
    (verify_phone demoStart
      { session_id := "s1", phone := some "9876543210" }).1.chat_messages.length = 2 ∧
    (2 : Nat) ≠ 1 + 2 :=
  ⟨rfl, rfl, rfl, by decide⟩

/-- C5 witness: the sortedness, the plus-one count and the zero-change
failure conjuncts applied at concrete inputs. -/
theorem claim5_witness :
    List.Pairwise (fun a b : ChatMessage => a.timestamp ≤ b.timestamp)
      (get_chat_history demoStart "s1") ∧
    (verify_otp demoStart
      { session_id := "s1", otp := some "123456",
        verification_type := some "phone" }).1.chat_messages.length =
      demoStart.chat_messages.length + 1 ∧
    (verify_otp demoStart
      { session_id := "s1", otp := some "000000",
        verification_type := some "phone" }).1 = demoStart := by
  refine ⟨claim5_history_sorted_and_counts.1 demoStart "s1", ?_, ?_⟩
  · exact (claim5_history_sorted_and_counts.2.1 demoStart).2.1 _ rfl rfl
  · exact (claim5_history_sorted_and_counts.2.2 demoStart).1 _ rfl (by decide)

/-- C6 (confirmed): `verify_otp` succeeds iff the submitted OTP equals the
fixed expected value for its type ("123456" for phone, "654321" for
email); on phone success the session advances to `email_verification` at
progress 25, on email success to `pan_verification` at progress 35, and on
a wrong OTP the call returns success=false with the store entirely
unchanged, for any number of retries. -/
theorem claim6_submit_otp :
    ∀ (db : Store) (r : VerificationRequest),
      (r.verification_type = some "phone" →
        (((verify_otp db r).2 = .ok true "Phone verified successfully!") ↔
          r.otp = some "123456") ∧
        (r.otp = some "123456" → ∀ s, findSession db r.session_id = some s →
          findSession (verify_otp db r).1 r.session_id =
            some { s with current_step := "email_verification",
                          progress_percentage := 25, updated_at := db.clock }) ∧
        (r.otp ≠ some "123456" →
          verify_otp db r = (db, .ok false "Invalid OTP. Please try again.")) ∧
        (r.otp ≠ some "123456" → ∀ n : Nat,
          (fun d => (verify_otp d r).1)^[n] db = db)) ∧
      (r.verification_type = some "email" →
        (((verify_otp db r).2 =
            .ok true "Email verified successfully! Confirmation sent to your email.") ↔
          r.otp = some "654321") ∧
        (r.otp = some "654321" → ∀ s, findSession db r.session_id = some s →
          findSession (verify_otp db r).1 r.session_id =
            some { s with current_step := "pan_verification",
                          progress_percentage := 35, updated_at := db.clock }) ∧
        (r.otp ≠ some "654321" →
          verify_otp db r = (db, .ok false "Invalid email OTP. Please try again.")) ∧
        (r.otp ≠ some "654321" → ∀ n : Nat,
          (fun d => (verify_otp d r).1)^[n] db = db)) := by
  intro db r
  constructor
  · intro h1
    refine ⟨?_, ?_, ?_, ?_⟩
    · by_cases h2 : r.otp = some "123456"
      · exact ⟨fun _ => h2, fun _ => by simp [verify_otp, h1, h2, insertMessage, updateSession]⟩
      · constructor
        · intro hr
          rw [show verify_otp db r = (db, .ok false "Invalid OTP. Please try again.") from
            by simp [verify_otp, h1, h2]] at hr
          simp at hr
        · intro h3; exact absurd h3 h2
    · intro h2 s hs
      simp only [verify_otp, h1, h2]
      rw [if_pos (by decide), if_neg (by decide)]
      simp only [findSession_insertMessage]
      exact findSession_updateSession (fun t => rfl) hs
    · intro h2; simp [verify_otp, h1, h2]
    · intro h2 n
      exact Function.iterate_fixed (by simp [verify_otp, h1, h2]) n
  · intro h1
    have hne : r.verification_type ≠ some "phone" := by rw [h1]; decide
    refine ⟨?_, ?_, ?_, ?_⟩
    · by_cases h2 : r.otp = some "654321"
      · exact ⟨fun _ => h2, fun _ => by simp [verify_otp, h1, hne, h2, insertMessage, updateSession]⟩
      · constructor
        · intro hr
          rw [show verify_otp db r = (db, .ok false "Invalid email OTP. Please try again.") from
            by simp [verify_otp, h1, hne, h2]] at hr
          simp at hr
        · intro h3; exact absurd h3 h2
    · intro h2 s hs
      simp only [verify_otp, h1, h2]
      rw [if_neg (by decide), if_pos (by decide), if_neg (by decide)]
      simp only [findSession_insertMessage]
      exact findSession_updateSession (fun t => rfl) hs
    · intro h2; simp [verify_otp, h1, hne, h2]
    · intro h2 n
      exact Function.iterate_fixed (by simp [verify_otp, h1, hne, h2]) n

/-- C6 witness: the theorem applied to the fresh session "s1" with the
correct and with a wrong phone OTP, and with the correct email OTP. -/
theorem claim6_witness :
    findSession (verify_otp demoStart
        { session_id := "s1", otp := some "123456",
          verification_type := some "phone" }).1 "s1" =
      some (⟨"s1", none, none, "email_verification", 25, 0, 2, "in_progress"⟩ :
        OnboardingSession) ∧
    verify_otp demoStart
        { session_id := "s1", otp := some "000000",
          verification_type := some "phone" } =
      (demoStart, .ok false "Invalid OTP. Please try again.") ∧
    findSession (verify_otp demoStart
        { session_id := "s1", otp := some "654321",
          verification_type := some "email" }).1 "s1" =
      some (⟨"s1", none, none, "pan_verification", 35, 0, 2, "in_progress"⟩ :
        OnboardingSession) := by
  refine ⟨?_, ?_, ?_⟩
  · exact ((claim6_submit_otp demoStart
      { session_id := "s1", otp := some "123456",
        verification_type := some "phone" }).1 rfl).2.1 rfl
      ⟨"s1", none, none, "welcome", 0, 0, 0, "in_progress"⟩ (by decide)
  · exact ((claim6_submit_otp demoStart
      { session_id := "s1", otp := some "000000",
        verification_type := some "phone" }).1 rfl).2.2.1 (by decide)
  · exact ((claim6_submit_otp demoStart
      { session_id := "s1", otp := some "654321",
        verification_type := some "email" }).2 rfl).2.1 rfl
      ⟨"s1", none, none, "welcome", 0, 0, 0, "in_progress"⟩ (by decide)

/-- C7 (confirmed): a PAN submission whose value is absent or not exactly
10 characters long fails without advancing, whatever the random draw; a
10-character PAN succeeds exactly when the mock draw succeeds, advancing
the session to `kyc_document` at progress 45. -/
theorem claim7_pan_validation :
    ∀ (db : Store) (r : KYCDocumentRequest) (draw : Bool),
      r.document_type = "pan" →
      (r.pan_number = none →
        verify_kyc_document db r draw =
          (db, .ok false "Please enter a valid 10-character PAN number.")) ∧
      (∀ p, r.pan_number = some p → p.length ≠ 10 →
        verify_kyc_document db r draw =
          (db, .ok false "Please enter a valid 10-character PAN number.")) ∧
      (∀ p, r.pan_number = some p → p.length = 10 →
        (((verify_kyc_document db r draw).2 = .ok true "PAN verified successfully!") ↔
          draw = true) ∧
        (draw = false →
          verify_kyc_document db r draw =
            (db, .ok false "PAN verification failed. Please check your PAN number and try again.")) ∧
        (draw = true → ∀ s, findSession db r.session_id = some s →
          findSession (verify_kyc_document db r draw).1 r.session_id =
            some { s with current_step := "kyc_document",
                          progress_percentage := 45, updated_at := db.clock })) := by
  intro db r draw h1
  refine ⟨?_, ?_, ?_⟩
  · intro hp; simp [verify_kyc_document, h1, hp]
  · intro p hp hlen; simp [verify_kyc_document, h1, hp, hlen]
  · intro p hp hlen
    have hne : p ≠ "" := by intro hq; rw [hq] at hlen; simp at hlen
    refine ⟨?_, ?_, ?_⟩
    · cases draw <;>
        simp [verify_kyc_document, h1, hp, hlen, hne, insertMessage, updateSession]
    · intro hd; subst hd
      simp [verify_kyc_document, h1, hp, hlen, hne]
    · intro hd; subst hd
      intro s hs
      simp only [verify_kyc_document, h1, hp]
      rw [if_pos (by decide)]
      rw [if_neg (by simp [hne, hlen])]
      rw [if_neg (by decide)]
      simp only [findSession_insertMessage]
      exact findSession_updateSession (fun t => rfl) hs

/-- C7 witness: the theorem applied to a concrete 5-character PAN (fails
regardless of the draw), and to a 10-character PAN with a failing and with
a succeeding draw (the latter advancing to `kyc_document` at 45). -/
theorem claim7_witness :
    verify_kyc_document demoStart
        { session_id := "s1", document_type := "pan", pan_number := some "SHORT" } true =
      (demoStart, .ok false "Please enter a valid 10-character PAN number.") ∧
    verify_kyc_document demoStart
        { session_id := "s1", document_type := "pan", pan_number := some "ABCDE1234F" } false =
      (demoStart, .ok false "PAN verification failed. Please check your PAN number and try again.") ∧
    findSession (verify_kyc_document demoStart
        { session_id := "s1", document_type := "pan", pan_number := some "ABCDE1234F" }
        true).1 "s1" =
      some (⟨"s1", none, none, "kyc_document", 45, 0, 2, "in_progress"⟩ :
        OnboardingSession) := by
  refine ⟨?_, ?_, ?_⟩
  · exact (claim7_pan_validation demoStart
      { session_id := "s1", document_type := "pan", pan_number := some "SHORT" }
      true rfl).2.1 "SHORT" rfl (by decide)
  · exact ((claim7_pan_validation demoStart
      { session_id := "s1", document_type := "pan", pan_number := some "ABCDE1234F" }
      false rfl).2.2 "ABCDE1234F" rfl (by decide)).2.1 rfl
  · exact ((claim7_pan_validation demoStart
      { session_id := "s1", document_type := "pan", pan_number := some "ABCDE1234F" }
      true rfl).2.2 "ABCDE1234F" rfl (by decide)).2.2 rfl
      ⟨"s1", none, none, "welcome", 0, 0, 0, "in_progress"⟩ (by decide)

/-- C8 (confirmed): for any drawn match score in the draw range [85, 98]
the threshold `score >= 85` holds, so `verify_biometric` always succeeds,
reports the score in its message, and advances the session to
`additional_info` at progress 80. -/
theorem claim8_biometric_never_fails :
    ∀ (db : Store) (r : BiometricRequest) (score : Nat),
      85 ≤ score → score ≤ 98 →
      (verify_biometric db r score).2 =
        .ok true ("Face verification successful! Match score: "
          ++ toString score ++ "%") ∧
      (∀ s, findSession db r.session_id = some s →
        findSession (verify_biometric db r score).1 r.session_id =
          some { s with current_step := "additional_info",
                        progress_percentage := 80, updated_at := db.clock }) := by
  intro db r score h85 h98
  constructor
  · simp [verify_biometric, decide_eq_true h85, insertMessage, updateSession]
  · intro s hs
    simp only [verify_biometric]
    rw [if_neg (by simp [decide_eq_true h85])]
    simp only [findSession_insertMessage]
    exact findSession_updateSession (fun t => rfl) hs

/-- C8 witness: the theorem applied at the extreme scores 85 and 98 of the
draw range. -/
theorem claim8_witness :
    (verify_biometric demoStart { session_id := "s1", face_image := "img" } 85).2 =
      .ok true "Face verification successful! Match score: 85%" ∧
    findSession (verify_biometric demoStart
        { session_id := "s1", face_image := "img" } 98).1 "s1" =
      some (⟨"s1", none, none, "additional_info", 80, 0, 2, "in_progress"⟩ :
        OnboardingSession) := by
  constructor
  · exact (claim8_biometric_never_fails demoStart
      { session_id := "s1", face_image := "img" } 85 (by decide) (by decide)).1
  · exact (claim8_biometric_never_fails demoStart
      { session_id := "s1", face_image := "img" } 98 (by decide) (by decide)).2
      ⟨"s1", none, none, "welcome", 0, 0, 0, "in_progress"⟩ (by decide)

/-- C9 (confirmed): every transition assigns at its target step exactly
the fixed progress value of the spec table (`specProgressOf`): 15 at
`phone_otp_verification`, 25 at `email_verification`, 30 at
`email_otp_verification`, 35 at `pan_verification`, 45 at `kyc_document`,
60 at `face_verification`, 80 at `additional_info`, 90 at `esign`, 100 at
`completion`, and a fresh session starts at `welcome` with 0; the
enumeration below covers every state-writing path of the code, so no
transition assigns any other value. -/
theorem claim9_progress_table :
    ∀ db : Store,
      (∀ i, (start_onboarding db i).1.sessions =
        db.sessions ++ [{ id := i, customer_phone := none,
                          customer_email := none, current_step := "welcome",
                          progress_percentage := specProgressOf "welcome",
                          created_at := db.clock, updated_at := db.clock,
                          status := "in_progress" }]) ∧
      (∀ r : VerificationRequest, ∀ s, findSession db r.session_id = some s →
        findSession (verify_phone db r).1 r.session_id =
          some { s with customer_phone := r.phone,
                        current_step := "phone_otp_verification",
                        progress_percentage := specProgressOf "phone_otp_verification",
                        updated_at := db.clock }) ∧
      (∀ r : VerificationRequest, r.verification_type = some "phone" →
        r.otp = some "123456" → ∀ s, findSession db r.session_id = some s →
        findSession (verify_otp db r).1 r.session_id =
          some { s with current_step := "email_verification",
                        progress_percentage := specProgressOf "email_verification",
                        updated_at := db.clock }) ∧
      (∀ r : VerificationRequest, r.verification_type = some "email" →
        r.otp = some "654321" → ∀ s, findSession db r.session_id = some s →
        findSession (verify_otp db r).1 r.session_id =
          some { s with current_step := "pan_verification",
                        progress_percentage := specProgressOf "pan_verification",
                        updated_at := db.clock }) ∧
      (∀ r : VerificationRequest, ∀ s, findSession db r.session_id = some s →
        findSession (verify_email db r).1 r.session_id =
          some { s with customer_email := r.email,
                        current_step := "email_otp_verification",
                        progress_percentage := specProgressOf "email_otp_verification",
                        updated_at := db.clock }) ∧
      (∀ (r : KYCDocumentRequest) (p : String), r.document_type = "pan" →
        r.pan_number = some p → p.length = 10 →
        ∀ s, findSession db r.session_id = some s →
        findSession (verify_kyc_document db r true).1 r.session_id =
          some { s with current_step := "kyc_document",
                        progress_percentage := specProgressOf "kyc_document",
                        updated_at := db.clock }) ∧
      (∀ r : KYCDocumentRequest,
        r.document_type = "aadhaar" ∨ r.document_type = "digilocker" →
        ∀ s, findSession db r.session_id = some s →
        findSession (verify_kyc_document db r true).1 r.session_id =
          some { s with current_step := "face_verification",
                        progress_percentage := specProgressOf "face_verification",
                        updated_at := db.clock }) ∧
      (∀ (r : BiometricRequest) (score : Nat), 85 ≤ score →
        ∀ s, findSession db r.session_id = some s →
        findSession (verify_biometric db r score).1 r.session_id =
          some { s with current_step := "additional_info",
                        progress_percentage := specProgressOf "additional_info",
                        updated_at := db.clock }) ∧
      (∀ r : AdditionalInfoRequest, ∀ s, findSession db r.session_id = some s →
        findSession (submit_additional_info db r).1 r.session_id =
          some { s with current_step := "esign",
                        progress_percentage := specProgressOf "esign",
                        updated_at := db.clock }) ∧
      (∀ r : ESignRequest, ∀ s, findSession db r.session_id = some s →
        findSession (complete_esign db r).1 r.session_id =
          some { s with current_step := "completion",
                        progress_percentage := specProgressOf "completion",
                        status := "completed", updated_at := db.clock }) := by
  intro db
  refine ⟨?_, ?_, ?_, ?_, ?_, ?_, ?_, ?_, ?_, ?_⟩
  · intro i; rfl
  · intro r s hs
    simp only [verify_phone, findSession_insertMessage]
    exact findSession_updateSession (fun t => rfl) hs
  · intro r h1 h2 s hs
    simp only [verify_otp, h1, h2]
    rw [if_pos (by decide), if_neg (by decide)]
    simp only [findSession_insertMessage]
    exact findSession_updateSession (fun t => rfl) hs
  · intro r h1 h2 s hs
    simp only [verify_otp, h1, h2]
    rw [if_neg (by decide), if_pos (by decide), if_neg (by decide)]
    simp only [findSession_insertMessage]
    exact findSession_updateSession (fun t => rfl) hs
  · intro r s hs
    simp only [verify_email, findSession_insertMessage]
    exact findSession_updateSession (fun t => rfl) hs
  · intro r p h1 hp hlen s hs
    have hne : p ≠ "" := by intro hq; rw [hq] at hlen; simp at hlen
    simp only [verify_kyc_document, h1, hp]
    rw [if_pos (by decide)]
    rw [if_neg (by simp [hne, hlen])]
    rw [if_neg (by decide)]
    simp only [findSession_insertMessage]
    exact findSession_updateSession (fun t => rfl) hs
  · intro r h1 s hs
    rcases h1 with h1 | h1 <;>
      · simp only [verify_kyc_document, h1]
        rw [if_neg (by decide), if_pos (by decide), if_neg (by decide)]
        simp only [findSession_insertMessage]
        exact findSession_updateSession (fun t => rfl) hs
  · intro r score hsc s hs
    simp only [verify_biometric]
    rw [if_neg (by simp [decide_eq_true hsc])]
    simp only [findSession_insertMessage]
    exact findSession_updateSession (fun t => rfl) hs
  · intro r s hs
    simp only [submit_additional_info, findSession_insertMessage]
    exact findSession_updateSession (fun t => rfl) hs
  · intro r s hs
    simp only [complete_esign, findSession_insertMessage]
    exact findSession_updateSession (fun t => rfl) hs

/-- C9 witness: the fresh-session and phone-transition conjuncts applied
at concrete inputs. -/
theorem claim9_witness :
    (start_onboarding emptyStore "s1").1.sessions =
      [{ id := "s1", customer_phone := none, customer_email := none,
         current_step := "welcome", progress_percentage := specProgressOf "welcome",
         created_at := 0, updated_at := 0, status := "in_progress" }] ∧
    findSession (verify_phone demoStart
        { session_id := "s1", phone := some "9876543210" }).1 "s1" =
      some (⟨"s1", some "9876543210", none, "phone_otp_verification",
        specProgressOf "phone_otp_verification", 0, 2, "in_progress"⟩ :
        OnboardingSession) := by
  constructor
  · exact (claim9_progress_table emptyStore).1 "s1"
  · exact (claim9_progress_table demoStart).2.1
      { session_id := "s1", phone := some "9876543210" }
      ⟨"s1", none, none, "welcome", 0, 0, 0, "in_progress"⟩ (by decide)

/-- C10 (confirmed): the `chat` route stores the user\x27s message BEFORE
looking up the session, so when the session id is unknown the 404 is
raised only after the message has been persisted: the store keeps the
extra user message while the sessions collection is untouched. -/
theorem claim10_chat_persists_before_404 :
    ∀ (db : Store) (m : ChatMessage),
      findSession db m.session_id = none →
      chat db m = ({ db with chat_messages := db.chat_messages ++ [m] },
        .err 404 "Session not found") := by
  intro db m h
  simp only [chat]
  rw [findSession_withMessages, h]

/-- C10 witness: the theorem applied to the empty store and an unknown
session id: the user message is persisted although the call 404s. -/
theorem claim10_witness :
    chat emptyStore ⟨"ghost", "hi there", "user", 7⟩ =
      ((⟨[], [⟨"ghost", "hi there", "user", 7⟩], 0⟩ : Store),
        .err 404 "Session not found") :=
  claim10_chat_persists_before_404 emptyStore ⟨"ghost", "hi there", "user", 7⟩ rfl
